import Mathlib

/-
  Verification of the Cosmos control-visualization sensor
  (CosmosControlSensor.h / .cpp) against its natural-language
  specification.  The C++ annotation pipeline is shallowly embedded:
  engine floats become rationals, FColor becomes a record of Nat
  channels, and the per-tick procedure becomes an explicit state
  transition on the four persisted-annotation flags.
-/

namespace Cosmos

/-- RGBA color with 8-bit channels, as FColor. -/
structure FColor where
  r : Nat
  g : Nat
  b : Nat
  a : Nat
deriving DecidableEq, Repr

/-- FColor::White. -/
def FColor.white : FColor := ⟨255, 255, 255, 255⟩

/-- A 3-component vector over the rationals (embedding of FVector). -/
structure Vec3 where
  x : ℚ
  y : ℚ
  z : ℚ
deriving DecidableEq, Repr

instance : Add Vec3 := ⟨fun a b => ⟨a.x + b.x, a.y + b.y, a.z + b.z⟩⟩
instance : Sub Vec3 := ⟨fun a b => ⟨a.x - b.x, a.y - b.y, a.z - b.z⟩⟩
instance : SMul ℚ Vec3 := ⟨fun q v => ⟨q * v.x, q * v.y, q * v.z⟩⟩

/-- Dot product on Vec3. -/
def Vec3.dot (a b : Vec3) : ℚ := a.x * b.x + a.y * b.y + a.z * b.z

@[simp] theorem Vec3.add_x (a b : Vec3) : (a + b).x = a.x + b.x := rfl
@[simp] theorem Vec3.add_y (a b : Vec3) : (a + b).y = a.y + b.y := rfl
@[simp] theorem Vec3.add_z (a b : Vec3) : (a + b).z = a.z + b.z := rfl
@[simp] theorem Vec3.sub_x (a b : Vec3) : (a - b).x = a.x - b.x := rfl
@[simp] theorem Vec3.sub_y (a b : Vec3) : (a - b).y = a.y - b.y := rfl
@[simp] theorem Vec3.sub_z (a b : Vec3) : (a - b).z = a.z - b.z := rfl
@[simp] theorem Vec3.smul_x (q : ℚ) (v : Vec3) : (q • v).x = q * v.x := rfl
@[simp] theorem Vec3.smul_y (q : ℚ) (v : Vec3) : (q • v).y = q * v.y := rfl
@[simp] theorem Vec3.smul_z (q : ℚ) (v : Vec3) : (q • v).z = q * v.z := rfl

theorem Vec3.ext_comp {a b : Vec3} (hx : a.x = b.x) (hy : a.y = b.y)
    (hz : a.z = b.z) : a = b := by
  cases a; cases b; simp_all

/-- The sensor's render configuration struct, with the built-in defaults
from CosmosControlSensor.h (struct CosmosRenderConfig). -/
structure CosmosRenderConfig where
  RoadLineThickness : ℚ := 8
  VehicleBoxThickness : ℚ := 5
  PoleThickness : ℚ := 8
  StopLineThickness : ℚ := 8
  LaneLinesColor : FColor := ⟨98, 183, 249, 255⟩
  RoadBoundariesColor : FColor := ⟨200, 36, 35, 255⟩
  WaitLinesColor : FColor := ⟨185, 63, 34, 255⟩
  CrosswalksColor : FColor := ⟨206, 131, 63, 255⟩
  RoadMarkingsColor : FColor := ⟨126, 204, 205, 255⟩
  TrafficSignsColor : FColor := ⟨131, 175, 155, 255⟩
  TrafficLightsColor : FColor := ⟨252, 157, 155, 255⟩
  CarsColor : FColor := ⟨255, 0, 0, 255⟩
  TrucksColor : FColor := ⟨0, 0, 255, 255⟩
  PedestriansColor : FColor := ⟨0, 255, 0, 255⟩
  CyclistsColor : FColor := ⟨255, 255, 0, 255⟩
  PolesColor : FColor := ⟨66, 40, 144, 255⟩
deriving DecidableEq, Repr

/-- The semantic tag enumeration carla::rpc::CityObjectLabel (the members
relevant to the switch plus the remaining members, which all fall to the
default branch). -/
inductive CityObjectLabel where
  | NoneTag | Buildings | Fences | Other | Pedestrians | Poles | RoadLines
  | Roads | Sidewalks | TrafficSigns | Vegetation | Car | Walls | Sky
  | Ground | Bridge | RailTrack | GuardRail | TrafficLight | Static
  | Dynamic | Water | Terrain | Truck | Motorcycle | Bicycle | Bus
  | Rider | Train | Any
deriving DecidableEq, Repr

/-- ACosmosControlSensor::GetColorByTag: switch on the semantic tag,
returning a configured color per category and FColor::White by default. -/
def getColorByTag (cfg : CosmosRenderConfig) : CityObjectLabel → FColor
  | .TrafficLight => cfg.TrafficLightsColor
  | .TrafficSigns => cfg.TrafficSignsColor
  | .Poles => cfg.PolesColor
  | .Car => cfg.CarsColor
  | .Bus => cfg.CarsColor
  | .Motorcycle => cfg.CarsColor
  | .Train => cfg.CarsColor
  | .Truck => cfg.TrucksColor
  | .Bicycle => cfg.CyclistsColor
  | .Pedestrians => cfg.PedestriansColor
  | _ => FColor.white

/-- The capsule primitive emitted for a pole-tagged mesh component. -/
structure PoleCapsule where
  center : Vec3
  halfHeight : ℚ
  radius : ℚ
  thickness : ℚ
deriving DecidableEq, Repr

/-- The Poles branch of PostPhysTick:
half_height = fmax(bounds.BoxExtent.Z, box_extent.Z),
distance_to_road = component location Z, capsule drawn at
location + (0,0,half_height) with half-height
half_height + (distance_to_road > 250 ? 0 : distance_to_road),
radius 0.1 and the configured pole thickness. -/
def drawPoleCapsule (cfg : CosmosRenderConfig) (boundsExtZ rawExtZ : ℚ)
    (loc : Vec3) : PoleCapsule :=
  let half_height : ℚ := max boundsExtZ rawExtZ
  let distance_to_road : ℚ := loc.z
  { center := loc + ⟨0, 0, half_height⟩
    halfHeight := half_height + (if distance_to_road > 250 then 0 else distance_to_road)
    radius := 1/10
    thickness := cfg.PoleThickness }

/-- C9: GetColorByTag is a pure total function over the tag enumeration:
each of the ten listed tags maps to the configured color of its category
(Car, Bus, Motorcycle and Train share the cars color, Bicycle maps to the
cyclists color), and every tag outside the listed ten maps to the default
white. -/
theorem C9_getColorByTag_total (cfg : CosmosRenderConfig) (t : CityObjectLabel)
    (h : t ∉ ([.TrafficLight, .TrafficSigns, .Poles, .Car, .Bus, .Motorcycle,
      .Train, .Truck, .Bicycle, .Pedestrians] : List CityObjectLabel)) :
    getColorByTag cfg .TrafficLight = cfg.TrafficLightsColor ∧
    getColorByTag cfg .TrafficSigns = cfg.TrafficSignsColor ∧
    getColorByTag cfg .Poles = cfg.PolesColor ∧
    getColorByTag cfg .Car = cfg.CarsColor ∧
    getColorByTag cfg .Bus = cfg.CarsColor ∧
    getColorByTag cfg .Motorcycle = cfg.CarsColor ∧
    getColorByTag cfg .Train = cfg.CarsColor ∧
    getColorByTag cfg .Truck = cfg.TrucksColor ∧
    getColorByTag cfg .Bicycle = cfg.CyclistsColor ∧
    getColorByTag cfg .Pedestrians = cfg.PedestriansColor ∧
    getColorByTag cfg t = FColor.white := by
  refine ⟨rfl, rfl, rfl, rfl, rfl, rfl, rfl, rfl, rfl, rfl, ?_⟩
  cases t <;> simp_all [getColorByTag]

/-- Witness for C9 at the concrete tag Roads (outside the enumeration). -/
theorem C9_getColorByTag_total_witness :
    getColorByTag {} .Roads = FColor.white :=
  (C9_getColorByTag_total {} .Roads (by decide)).2.2.2.2.2.2.2.2.2.2

/-- C6: the pole capsule's half-height is max(derived vertical extent, raw
actor vertical extent) plus a ground offset that is zero when the
component's base height exceeds 250 and equals the base height otherwise;
the radius is fixed at 0.1; in particular a pole at height 300 gets zero
offset and a pole at height 100 gets offset 100. -/
theorem C6_poleCapsule_offset (cfg : CosmosRenderConfig) (d r x y : ℚ) :
    (∀ loc : Vec3, (drawPoleCapsule cfg d r loc).halfHeight =
      max d r + (if loc.z > 250 then 0 else loc.z) ∧
      (drawPoleCapsule cfg d r loc).radius = 1/10) ∧
    (drawPoleCapsule cfg d r ⟨x, y, 300⟩).halfHeight = max d r ∧
    (drawPoleCapsule cfg d r ⟨x, y, 100⟩).halfHeight = max d r + 100 := by
  refine ⟨fun loc => ⟨rfl, rfl⟩, ?_, ?_⟩
  · show max d r + (if (300 : ℚ) > 250 then 0 else 300) = max d r
    norm_num
  · show max d r + (if (100 : ℚ) > 250 then 0 else 100) = max d r + 100
    norm_num

/-! ### Configuration loading (LoadConfigFromFile) -/

/-- The LineThickness JSON object: each key may be present or absent. -/
structure LineThicknessJson where
  road_lines : Option ℚ
  vehicle_boxes : Option ℚ
  poles : Option ℚ
  stop_lines : Option ℚ
deriving DecidableEq, Repr

/-- The Colors JSON object: each key may hold an array of numbers. -/
structure ColorsJson where
  lane_lines : Option (List Nat) := none
  road_boundaries : Option (List Nat) := none
  crosswalks : Option (List Nat) := none
  road_markings : Option (List Nat) := none
  traffic_signs : Option (List Nat) := none
  traffic_lights : Option (List Nat) := none
  cars : Option (List Nat) := none
  trucks : Option (List Nat) := none
  pedestrians : Option (List Nat) := none
  cyclists : Option (List Nat) := none
  poles : Option (List Nat) := none
deriving DecidableEq, Repr

/-- The parsed CosmosControlVisualization JSON object. -/
structure CosmosConfigJson where
  lineThickness : Option LineThicknessJson
  colors : Option ColorsJson
deriving DecidableEq, Repr

/-- FJsonObject::GetNumberField: returns the field's number, and 0.0 when
the field is missing (the engine logs an error and returns 0.0). -/
def getNumberField (v : Option ℚ) : ℚ := v.getD 0

/-- The LoadColor lambda in LoadConfigFromFile: TryGetArrayField followed by
a 3-element check; on success the color is replaced by the three channels
with alpha 255 (channels pass through the FColor uint8 constructor),
otherwise the current color is kept. -/
def loadColor (v : Option (List Nat)) (current : FColor) : FColor :=
  match v with
  | some [r, g, b] => ⟨r % 256, g % 256, b % 256, 255⟩
  | _ => current

/-- ACosmosControlSensor::LoadConfigFromFile, from the point where the
CosmosControlVisualization object has been parsed: if the LineThickness
object is present, all four thickness fields are read with GetNumberField
unconditionally; if the Colors object is present, each of the eleven color
keys is loaded with the LoadColor lambda. -/
def loadConfigFromJson (j : CosmosConfigJson) (cfg : CosmosRenderConfig) :
    CosmosRenderConfig :=
  let cfg1 :=
    match j.lineThickness with
    | some t =>
      { cfg with
        RoadLineThickness := getNumberField t.road_lines
        VehicleBoxThickness := getNumberField t.vehicle_boxes
        PoleThickness := getNumberField t.poles
        StopLineThickness := getNumberField t.stop_lines }
    | none => cfg
  match j.colors with
  | some c =>
    { cfg1 with
      LaneLinesColor := loadColor c.lane_lines cfg1.LaneLinesColor
      RoadBoundariesColor := loadColor c.road_boundaries cfg1.RoadBoundariesColor
      CrosswalksColor := loadColor c.crosswalks cfg1.CrosswalksColor
      RoadMarkingsColor := loadColor c.road_markings cfg1.RoadMarkingsColor
      TrafficSignsColor := loadColor c.traffic_signs cfg1.TrafficSignsColor
      TrafficLightsColor := loadColor c.traffic_lights cfg1.TrafficLightsColor
      CarsColor := loadColor c.cars cfg1.CarsColor
      TrucksColor := loadColor c.trucks cfg1.TrucksColor
      PedestriansColor := loadColor c.pedestrians cfg1.PedestriansColor
      CyclistsColor := loadColor c.cyclists cfg1.CyclistsColor
      PolesColor := loadColor c.poles cfg1.PolesColor }
  | none => cfg1

/-- A config file whose LineThickness object sets only road_lines (to v)
and has no Colors object. -/
def onlyRoadLinesJson (v : ℚ) : CosmosConfigJson :=
  { lineThickness := some
      { road_lines := some v
        vehicle_boxes := none
        poles := none
        stop_lines := none }
    colors := none }

/-- C5 counterexample: loading a file that sets only the road_lines
thickness does NOT leave the other thicknesses at their defaults — the
vehicle-box thickness becomes 0 (GetNumberField's missing-field fallback)
instead of its built-in default 5. -/
theorem C5_counterexample :
    (loadConfigFromJson (onlyRoadLinesJson 3) {}).VehicleBoxThickness ≠
      ({} : CosmosRenderConfig).VehicleBoxThickness := by
  decide

/-- C5 amended: loading a file whose LineThickness object sets only
road_lines leaves all twelve colors at their built-in defaults and sets
the road-line thickness to the given value, but the other three
thicknesses are reset to 0 (GetNumberField returns 0.0 for a missing
field), not kept at their defaults. -/
theorem C5_partial_override (v : ℚ) :
    loadConfigFromJson (onlyRoadLinesJson v) {} =
      { ({} : CosmosRenderConfig) with
        RoadLineThickness := v
        VehicleBoxThickness := 0
        PoleThickness := 0
        StopLineThickness := 0 } := by
  rfl

/-! ### Crosswalk polygon parsing and fan triangulation -/

/-- carla::geom::Location::ToFVector followed by the * 100.0f scale applied
when a crosswalk point is appended to the current polygon. -/
def scale100 (v : Vec3) : Vec3 := ⟨100 * v.x, 100 * v.y, 100 * v.z⟩

/-- The "Simple triangulation" loop: for j from 1 to n-2 the indices
0, j, j+1 are appended, fanning the polygon from vertex 0. -/
def fanIndices (n : Nat) : List Nat :=
  (List.range (n - 2)).flatMap (fun j => [0, j + 1, j + 2])

/-- One drawn crosswalk mesh: its vertex list and its index list. -/
abbrev CrosswalkMesh := List Vec3 × List Nat

/-- The crosswalk scan loop of PostPhysTick.  The state is `none` right
after a loop-closure sentinel was consumed (the next point, if any,
starts a new polygon as its first point), or `some (first, acc)` where
`first` is the raw first point of the current run and `acc` the scaled
points accumulated so far.  On reading a point equal to `first`, the
accumulated polygon is drawn if it has at least 3 vertices, and the scan
restarts; any trailing run left at the end of the input is discarded. -/
def cwStep : Option (Vec3 × List Vec3) → List Vec3 → List CrosswalkMesh
  | _, [] => []
  | none, p :: rest => cwStep (some (p, [scale100 p])) rest
  | some (first, acc), p :: rest =>
    if p = first then
      (if 3 ≤ acc.length then [(acc, fanIndices acc.length)] else []) ++
        cwStep none rest
    else
      cwStep (some (first, acc ++ [scale100 p])) rest

/-- The crosswalk block applied to GetAllCrosswalkZones' point sequence:
the first point opens the first polygon, then the scan loop runs. -/
def crosswalkMeshes : List Vec3 → List CrosswalkMesh
  | [] => []
  | p :: rest => cwStep (some (p, [scale100 p])) rest

theorem crosswalkMeshes_eq_cwStep (pts : List Vec3) :
    crosswalkMeshes pts = cwStep none pts := by
  cases pts <;> rfl

theorem fanIndices_length (n : Nat) :
    (fanIndices n).length = 3 * (n - 2) := by
  unfold fanIndices
  generalize n - 2 = k
  induction k with
  | zero => rfl
  | succ m ih =>
    rw [List.range_succ, List.flatMap_append, List.length_append, ih]
    simp [Nat.mul_succ]

/-- Every mesh emitted by the crosswalk scan has at least 3 vertices and
its index list is the fan from vertex 0 over those vertices. -/
theorem cwStep_mem (pts : List Vec3) :
    ∀ st m, m ∈ cwStep st pts →
      3 ≤ m.1.length ∧ m.2 = fanIndices m.1.length := by
  induction pts with
  | nil => intro st m hm; simp [cwStep] at hm
  | cons p rest ih =>
    intro st m hm
    match st with
    | none =>
      exact ih _ m hm
    | some (first, acc) =>
      rw [cwStep] at hm
      by_cases hpf : p = first
      · rw [if_pos hpf] at hm
        rcases List.mem_append.mp hm with hl | hr
        · by_cases h3 : 3 ≤ acc.length
          · rw [if_pos h3, List.mem_singleton] at hl
            subst hl
            exact ⟨h3, rfl⟩
          · rw [if_neg h3] at hl
            simp at hl
        · exact ih _ m hr
      · rw [if_neg hpf] at hm
        exact ih _ m hm

/-- Concrete crosswalk points for the [A,B,C,A,D,E,F,D] scenario. -/
def cwA : Vec3 := ⟨0, 0, 0⟩
def cwB : Vec3 := ⟨1, 0, 0⟩
def cwC : Vec3 := ⟨1, 1, 0⟩
def cwD : Vec3 := ⟨2, 0, 0⟩
def cwE : Vec3 := ⟨3, 0, 0⟩
def cwF : Vec3 := ⟨3, 1, 0⟩

/-- C2: every closed crosswalk run with at least 3 vertices is drawn as a
fan from vertex 0 with exactly n-2 triangles (3(n-2) indices), runs with
fewer than 3 vertices produce no triangles, and the input
[A,B,C,A,D,E,F,D] produces exactly the two polygons {A,B,C} and {D,E,F},
one triangle each; the degenerate input [A,B,A] draws nothing. -/
theorem cw_concrete_closed :
    crosswalkMeshes [cwA, cwB, cwC, cwA, cwD, cwE, cwF, cwD] =
      [([scale100 cwA, scale100 cwB, scale100 cwC], [0, 1, 2]),
       ([scale100 cwD, scale100 cwE, scale100 cwF], [0, 1, 2])] := by
  norm_num [crosswalkMeshes, cwStep, scale100, fanIndices,
    cwA, cwB, cwC, cwD, cwE, cwF, List.range_succ]

theorem cw_concrete_degenerate :
    crosswalkMeshes [cwA, cwB, cwA] = [] := by
  norm_num [crosswalkMeshes, cwStep, cwA, cwB]

theorem C2_crosswalk_fan (pts : List Vec3) (m : CrosswalkMesh)
    (hm : m ∈ crosswalkMeshes pts) :
    (3 ≤ m.1.length ∧ m.2 = fanIndices m.1.length ∧
      m.2.length = 3 * (m.1.length - 2)) ∧
    crosswalkMeshes [cwA, cwB, cwC, cwA, cwD, cwE, cwF, cwD] =
      [([scale100 cwA, scale100 cwB, scale100 cwC], [0, 1, 2]),
       ([scale100 cwD, scale100 cwE, scale100 cwF], [0, 1, 2])] ∧
    crosswalkMeshes [cwA, cwB, cwA] = [] := by
  rw [crosswalkMeshes_eq_cwStep] at hm
  obtain ⟨h3, hfan⟩ := cwStep_mem pts none m hm
  exact ⟨⟨h3, hfan, by rw [hfan, fanIndices_length]⟩,
    cw_concrete_closed, cw_concrete_degenerate⟩

/-- Witness for C2 at the concrete 8-point input. -/
theorem C2_crosswalk_fan_witness :
    (([scale100 cwA, scale100 cwB, scale100 cwC], ([0, 1, 2] : List Nat)) ∈
      crosswalkMeshes [cwA, cwB, cwC, cwA, cwD, cwE, cwF, cwD]) ∧
    3 ≤ ([scale100 cwA, scale100 cwB, scale100 cwC] : List Vec3).length := by
  have hm : (([scale100 cwA, scale100 cwB, scale100 cwC], ([0, 1, 2] : List Nat)) ∈
      crosswalkMeshes [cwA, cwB, cwC, cwA, cwD, cwE, cwF, cwD]) := by
    rw [cw_concrete_closed]; exact List.mem_cons_self _ _
  exact ⟨hm, (C2_crosswalk_fan [cwA, cwB, cwC, cwA, cwD, cwE, cwF, cwD]
    ([scale100 cwA, scale100 cwB, scale100 cwC], [0, 1, 2]) hm).1.1⟩

/-- C10: a trailing crosswalk run that is never closed by a repetition of
its first point produces no mesh: from any scan state whose current first
point does not reappear in the remaining input, nothing more is drawn;
in particular an input that is a single unclosed run draws nothing. -/
theorem C10_unclosed_run_not_drawn :
    (∀ (first : Vec3) (acc : List Vec3) (tail : List Vec3),
      first ∉ tail → cwStep (some (first, acc)) tail = []) ∧
    (∀ (p : Vec3) (tail : List Vec3),
      p ∉ tail → crosswalkMeshes (p :: tail) = []) := by
  have key : ∀ (tail : List Vec3) (first : Vec3) (acc : List Vec3),
      first ∉ tail → cwStep (some (first, acc)) tail = [] := by
    intro tail
    induction tail with
    | nil => intro first acc _; rfl
    | cons q rest ih =>
      intro first acc h
      rw [cwStep,
        if_neg (fun hq : q = first => h (List.mem_cons.mpr (Or.inl hq.symm)))]
      exact ih first _ (fun hmem => h (List.mem_cons_of_mem q hmem))
  exact ⟨fun f a t => key t f a, fun p t h => key t p _ h⟩

/-- Witness for C10: the unclosed run [A,B,C] (A never repeated) draws
nothing. -/
theorem C10_unclosed_run_not_drawn_witness :
    cwStep (some (cwA, [scale100 cwA])) [cwB, cwC] = [] ∧
    crosswalkMeshes [cwA, cwB, cwC] = [] :=
  ⟨C10_unclosed_run_not_drawn.1 cwA [scale100 cwA] [cwB, cwC] (by decide),
   C10_unclosed_run_not_drawn.2 cwA [cwB, cwC] (by decide)⟩

/-! ### Road-spline lane-adjacency renderability -/

/-- ERoadSplineBoundaryType: the four kinds handled by the decision tables
plus the remaining kinds (all skipped by the outer continue). -/
inductive ERoadSplineBoundaryType where
  | Driving | Shoulder | Sidewalk | Median | Other
deriving DecidableEq, Repr

/-- ERoadSplineOrientationType. -/
inductive ERoadSplineOrientationType where
  | Left | Right
deriving DecidableEq, Repr

/-- The fields of ARoadSpline used by the renderability decision. -/
structure RoadSpline where
  RoadID : ℤ
  LaneID : ℤ
  BoundaryType : ERoadSplineBoundaryType
  OrientationType : ERoadSplineOrientationType
  bIsJunction : Bool
deriving DecidableEq, Repr

/-- The lane-id shift used by the found_splines filter predicate:
left orientation shifts by -1 (-2 when this spline's lane id is 1),
right orientation shifts by +1 (+2 when this spline's lane id is -1). -/
def neighborLaneShift (s : RoadSpline) : ℤ :=
  if s.OrientationType = .Left then (if s.LaneID = 1 then -2 else -1)
  else (if s.LaneID = -1 then 2 else 1)

/-- The found_splines FilterByPredicate over the same-road spline array:
keep the splines whose lane id equals this spline's shifted lane id. -/
def foundSplines (s : RoadSpline) (roadSplines : List RoadSpline) :
    List RoadSpline :=
  roadSplines.filter (fun t => t.LaneID = s.LaneID + neighborLaneShift s)

/-- One iteration of the per-neighbor switch assigning should_render.
Every reachable case overwrites the accumulator; the boundary kinds the
chains do not mention (unreachable, since the outer continue already
excluded them) leave it unchanged. -/
def renderStep (s : RoadSpline) (acc : Bool) (t : RoadSpline) : Bool :=
  if s.bIsJunction then
    match t.BoundaryType with
    | .Driving | .Shoulder =>
      match s.BoundaryType with
      | .Driving => false
      | .Shoulder => false
      | .Sidewalk => true
      | .Median => true
      | .Other => acc
    | _ => false
  else if s.OrientationType = .Left then
    match t.BoundaryType with
    | .Driving =>
      match s.BoundaryType with
      | .Driving => decide (0 < s.LaneID ∧ 0 < s.LaneID * t.LaneID)
      | .Shoulder => false
      | .Sidewalk => decide (0 < s.LaneID ∧ 0 < s.LaneID * t.LaneID)
      | .Median => true
      | .Other => acc
    | .Shoulder =>
      match s.BoundaryType with
      | .Driving => false
      | .Shoulder => false
      | .Sidewalk => decide (0 < s.LaneID ∧ 0 < s.LaneID * t.LaneID)
      | .Median => true
      | .Other => acc
    | _ => false
  else
    match t.BoundaryType with
    | .Driving =>
      match s.BoundaryType with
      | .Driving => decide (s.LaneID < 0)
      | .Shoulder => false
      | .Sidewalk => decide (s.LaneID < 0)
      | .Median => true
      | .Other => acc
    | .Shoulder =>
      match s.BoundaryType with
      | .Driving => false
      | .Shoulder => false
      | .Sidewalk => decide (s.LaneID < 0)
      | .Median => true
      | .Other => acc
    | _ => false

/-- The renderability decision for one spline against the splines of its
road: splines whose boundary kind is outside
{Driving, Shoulder, Sidewalk, Median} are skipped by the continue;
otherwise should_render starts false and each neighbor in found_splines
runs one switch iteration (the last assignment wins). -/
def shouldRenderSpline (s : RoadSpline) (roadSplines : List RoadSpline) :
    Bool :=
  if s.BoundaryType = .Other then false
  else (foundSplines s roadSplines).foldl (renderStep s) false

/-- The left-oriented Driving-kind spline with lane id +1 of claim C1. -/
def c1Spline : RoadSpline :=
  { RoadID := 7, LaneID := 1, BoundaryType := .Driving
    OrientationType := .Left, bIsJunction := false }

/-- A Driving-kind spline with lane id +2 on the same road. -/
def c1NeighborPlus2 : RoadSpline :=
  { RoadID := 7, LaneID := 2, BoundaryType := .Driving
    OrientationType := .Left, bIsJunction := false }

/-- A Driving-kind spline with lane id -1 on the same road. -/
def c1NeighborMinus1 : RoadSpline :=
  { RoadID := 7, LaneID := -1, BoundaryType := .Driving
    OrientationType := .Left, bIsJunction := false }

/-- C1 counterexample: for the left-oriented Driving spline with lane id
+1 on a road that also contains a Driving spline with lane id +2, the
decision is should_render = false, not true — the left-orientation lookup
for lane id 1 shifts by -2 and so targets lane id -1, which the +2
neighbor does not match, leaving found_splines empty. -/
theorem C1_counterexample :
    ¬ (shouldRenderSpline c1Spline [c1Spline, c1NeighborPlus2] = true) := by
  decide

/-- C1 amended: with the neighbor lookup exactly as the claim describes it
(shift -1 for left orientation, -2 when this spline's lane id is 1; +1 for
right orientation, +2 when this spline's lane id is -1), the left-oriented
Driving spline with lane id +1 yields should_render = false both when the
road's other Driving spline has lane id +2 (not selected by the lookup,
which targets lane id -1) and when it has lane id -1 (selected, but the
lane-id product 1 * (-1) is negative). -/
theorem C1_laneAdjacency (s : RoadSpline) :
    (s.OrientationType = .Left → s.LaneID = 1 → neighborLaneShift s = -2) ∧
    (s.OrientationType = .Left → s.LaneID ≠ 1 → neighborLaneShift s = -1) ∧
    (s.OrientationType = .Right → s.LaneID = -1 → neighborLaneShift s = 2) ∧
    (s.OrientationType = .Right → s.LaneID ≠ -1 → neighborLaneShift s = 1) ∧
    shouldRenderSpline c1Spline [c1Spline, c1NeighborPlus2] = false ∧
    shouldRenderSpline c1Spline [c1Spline, c1NeighborMinus1] = false := by
  refine ⟨?_, ?_, ?_, ?_, by decide, by decide⟩ <;>
    intro ho hl <;> simp [neighborLaneShift, ho, hl]

/-- Witness for C1 at the concrete spline of the claim. -/
theorem C1_laneAdjacency_witness :
    neighborLaneShift c1Spline = -2 :=
  (C1_laneAdjacency c1Spline).1 (by decide) (by decide)

/-! ### Stop lines -/

/-- The UBoxComponent data the stop-line block reads: world location,
scaled box extent, forward vector and right vector. -/
structure UBoxComponent where
  location : Vec3
  scaledBoxExtent : Vec3
  forwardVector : Vec3
  rightVector : Vec3
deriving DecidableEq, Repr

/-- One emitted stop line (a DrawDebugLine call). -/
structure StopLineDraw where
  lineStart : Vec3
  lineEnd : Vec3
  color : FColor
  persistent : Bool
  thickness : ℚ
deriving DecidableEq, Repr

/-- base_pos: the collider's X and Y with Z replaced by
-(StopLineThickness * 0.5 + 2). -/
def stopLineBasePos (cfg : CosmosRenderConfig) (box : UBoxComponent) : Vec3 :=
  let stopLineOffset : ℚ := cfg.StopLineThickness * (1/2) + 2
  ⟨box.location.x, box.location.y, -stopLineOffset⟩

/-- The stop line drawn for one traffic light's stop-box collider:
endpoints at base_pos ± extent.X * ForwardVector, both shifted by
-710 * RightVector, drawn persistent in the wait-lines color with the
stop-line thickness. -/
def stopLineForCollider (cfg : CosmosRenderConfig) (box : UBoxComponent) :
    StopLineDraw :=
  let base_pos := stopLineBasePos cfg box
  { lineStart := base_pos + (-box.scaledBoxExtent.x) • box.forwardVector +
      (-710 : ℚ) • box.rightVector
    lineEnd := base_pos + box.scaledBoxExtent.x • box.forwardVector +
      (-710 : ℚ) • box.rightVector
    color := cfg.WaitLinesColor
    persistent := true
    thickness := cfg.StopLineThickness }

/-- Dereference of a possibly-null pointer; `none` is a null dereference,
modelled as a fault. -/
def deref {α : Type} (p : Option α) : Except Unit α :=
  match p with
  | none => .error ()
  | some a => .ok a

/-- The body of the stop-line loop for one traffic-light actor: the
box-component lookup may return null, and the collider is dereferenced
without a null check. -/
def annotateStopLineForLight (cfg : CosmosRenderConfig)
    (collider : Option UBoxComponent) : Except Unit StopLineDraw := do
  let box ← deref collider
  pure (stopLineForCollider cfg box)

/-- C4 counterexample: a traffic light whose box-component lookup returns
null is NOT silently skipped — the stop-line loop dereferences the missing
collider and faults (there is no null check before stop_box_collider is
used). -/
theorem C4_counterexample :
    annotateStopLineForLight {} none = Except.error () := by
  rfl

/-- C4 amended: the stop-line loop dereferences the collider
unconditionally: with a collider present the element produces exactly the
computed stop line, and with an absent collider the loop faults on the
null dereference instead of skipping the element. -/
theorem C4_collider_deref (cfg : CosmosRenderConfig) (box : UBoxComponent) :
    annotateStopLineForLight cfg (some box) =
      Except.ok (stopLineForCollider cfg box) ∧
    annotateStopLineForLight cfg none = Except.error () :=
  ⟨rfl, rfl⟩

/-- The concrete collider used to refute C8's perpendicularity. -/
def c8Box : UBoxComponent :=
  { location := ⟨0, 0, 0⟩
    scaledBoxExtent := ⟨100, 50, 30⟩
    forwardVector := ⟨1, 0, 0⟩
    rightVector := ⟨0, 1, 0⟩ }

/-- C8 counterexample: the drawn stop line is not perpendicular to the
forward axis — for a collider with forward (1,0,0), right (0,1,0) and
extent X = 100, the line direction has a non-zero dot product with the
forward vector (the line runs along the forward vector). -/
theorem C8_counterexample :
    ¬ (Vec3.dot ((stopLineForCollider {} c8Box).lineEnd -
        (stopLineForCollider {} c8Box).lineStart) c8Box.forwardVector = 0) := by
  norm_num [stopLineForCollider, stopLineBasePos, c8Box, Vec3.dot]

/-- C8 amended: the stop line for a traffic light's stop-box collider runs
parallel to the collider's forward axis (its direction is
2 * extent.X * ForwardVector, hence perpendicular to the right axis
whenever forward and right are orthogonal), both endpoints are offset
laterally by -710 along the right vector from base_pos, whose height is
set to -(half the stop-line thickness + 2); the line is emitted persistent
in the wait-lines color with the stop-line thickness. -/
theorem C8_stopLine_geometry (cfg : CosmosRenderConfig) (box : UBoxComponent)
    (horth : Vec3.dot box.forwardVector box.rightVector = 0) :
    (stopLineForCollider cfg box).lineEnd -
        (stopLineForCollider cfg box).lineStart =
      (2 * box.scaledBoxExtent.x) • box.forwardVector ∧
    Vec3.dot ((stopLineForCollider cfg box).lineEnd -
        (stopLineForCollider cfg box).lineStart) box.rightVector = 0 ∧
    (stopLineForCollider cfg box).lineStart =
      stopLineBasePos cfg box +
        (-box.scaledBoxExtent.x) • box.forwardVector +
        (-710 : ℚ) • box.rightVector ∧
    (stopLineForCollider cfg box).lineEnd =
      stopLineBasePos cfg box +
        box.scaledBoxExtent.x • box.forwardVector +
        (-710 : ℚ) • box.rightVector ∧
    (stopLineBasePos cfg box).z = -(cfg.StopLineThickness / 2 + 2) ∧
    (stopLineForCollider cfg box).color = cfg.WaitLinesColor ∧
    (stopLineForCollider cfg box).persistent = true ∧
    (stopLineForCollider cfg box).thickness = cfg.StopLineThickness := by
  have hdir : (stopLineForCollider cfg box).lineEnd -
      (stopLineForCollider cfg box).lineStart =
      (2 * box.scaledBoxExtent.x) • box.forwardVector := by
    refine Vec3.ext_comp ?_ ?_ ?_ <;>
      simp [stopLineForCollider, stopLineBasePos] <;> ring
  refine ⟨hdir, ?_, rfl, rfl, ?_, rfl, rfl, rfl⟩
  · rw [hdir]
    simp only [Vec3.dot, Vec3.smul_x, Vec3.smul_y, Vec3.smul_z] at horth ⊢
    linear_combination (2 * box.scaledBoxExtent.x) * horth
  · simp only [Vec3.dot] at horth
    simp [stopLineBasePos]
    ring

/-- Witness for C8 at the concrete collider c8Box (orthogonal frame). -/
theorem C8_stopLine_geometry_witness :
    (stopLineForCollider {} c8Box).lineEnd -
        (stopLineForCollider {} c8Box).lineStart =
      (2 * c8Box.scaledBoxExtent.x) • c8Box.forwardVector :=
  (C8_stopLine_geometry {} c8Box (by norm_num [Vec3.dot, c8Box])).1

/-! ### The per-tick persisted-annotation state machine -/

/-- The four added_persisted_* booleans of the sensor, in declaration
order. -/
structure PersistedFlags where
  added_persisted_stop_lines : Bool
  added_persisted_route_lines : Bool
  added_persisted_crosswalks : Bool
  added_persisted_stencils : Bool
deriving DecidableEq, Repr

/-- The constructor initializes all four flags to false. -/
def initialFlags : PersistedFlags := ⟨false, false, false, false⟩

/-- One road stencil record (width and length in meters). -/
structure StencilRec where
  width : ℚ
  length : ℚ
deriving DecidableEq, Repr

/-- The map data reached through the game mode: the flat crosswalk point
sequence and the stencil map entries (entries may be null). -/
structure GameMap where
  crosswalkPoints : List Vec3
  stencils : List (Option StencilRec)
deriving DecidableEq, Repr

/-- The world contents a tick observes: the traffic-light stop-box
colliders, the road-spline actors, and the game mode (null until the
Carla game mode exists). -/
structure TickEnv where
  trafficLights : List UBoxComponent
  roadSplines : List RoadSpline
  gameMode : Option GameMap
deriving DecidableEq, Repr

/-- What one tick draws persistently, per category. -/
structure TickOut where
  stopLineDraws : List StopLineDraw
  routeSplinesDrawn : List RoadSpline
  crosswalkDraws : List CrosswalkMesh
  stencilDrawCount : Nat
deriving DecidableEq, Repr

/-- The route-line pass over all road-spline actors: splines are grouped
by RoadID (each group keeping encounter order) and a spline is drawn when
the lane-adjacency decision against its own road group says so. -/
def drawnRouteSplines (splines : List RoadSpline) : List RoadSpline :=
  splines.filter
    (fun s => shouldRenderSpline s
      (splines.filter (fun t => t.RoadID = s.RoadID)))

/-- The stop-line block: guarded only by its own flag, which is set
before the traffic lights are enumerated, so it is set no matter how many
lights exist. -/
def stopLinesBlock (cfg : CosmosRenderConfig) (env : TickEnv) (flag : Bool) :
    Bool × List StopLineDraw :=
  if flag then (true, [])
  else (true, env.trafficLights.map (stopLineForCollider cfg))

/-- The route-line block: the flag is set only when RoadSplines.Num() > 0;
the pass itself runs whenever the flag was false. -/
def routeLinesBlock (env : TickEnv) (flag : Bool) :
    Bool × List RoadSpline :=
  if flag then (true, [])
  else (decide (0 < env.roadSplines.length), drawnRouteSplines env.roadSplines)

/-- The crosswalk block: runs (and sets its flag) only when the flag is
false and the game mode is non-null. -/
def crosswalksBlock (env : TickEnv) (flag : Bool) :
    Bool × List CrosswalkMesh :=
  match flag, env.gameMode with
  | false, some gm => (true, crosswalkMeshes gm.crosswalkPoints)
  | f, _ => (f, [])

/-- The stencil block: runs (and sets its flag) only when the flag is
false and the game mode is non-null; null stencil entries are skipped. -/
def stencilsBlock (env : TickEnv) (flag : Bool) : Bool × Nat :=
  match flag, env.gameMode with
  | false, some gm => (true, (gm.stencils.filter (fun s => s.isSome)).length)
  | f, _ => (f, 0)

/-- The persisted-annotation part of ACosmosControlSensor::PostPhysTick as
a state transition on the four flags, returning the new flags and the
persistent draws of this tick. -/
def postPhysTick (cfg : CosmosRenderConfig) (env : TickEnv)
    (fl : PersistedFlags) : PersistedFlags × TickOut :=
  let stop := stopLinesBlock cfg env fl.added_persisted_stop_lines
  let route := routeLinesBlock env fl.added_persisted_route_lines
  let cross := crosswalksBlock env fl.added_persisted_crosswalks
  let stencil := stencilsBlock env fl.added_persisted_stencils
  (⟨stop.1, route.1, cross.1, stencil.1⟩,
   ⟨stop.2, route.2, cross.2, stencil.2⟩)

/-- A sequence of ticks, threading the flag state and collecting each
tick's persistent draws. -/
def runTicks (cfg : CosmosRenderConfig) :
    List TickEnv → PersistedFlags → PersistedFlags × List TickOut
  | [], fl => (fl, [])
  | e :: es, fl =>
    let r := postPhysTick cfg e fl
    let rest := runTicks cfg es r.1
    (rest.1, r.2 :: rest.2)

/-- An environment with no traffic lights, no road-spline actors and no
game mode. -/
def emptyEnv : TickEnv := ⟨[], [], none⟩

theorem postPhysTick_stop_flag (cfg : CosmosRenderConfig) (env : TickEnv)
    (fl : PersistedFlags) :
    (postPhysTick cfg env fl).1.added_persisted_stop_lines = true := by
  cases h : fl.added_persisted_stop_lines <;>
    simp [postPhysTick, stopLinesBlock, h]

theorem postPhysTick_stop_done (cfg : CosmosRenderConfig) (env : TickEnv)
    (fl : PersistedFlags) (h : fl.added_persisted_stop_lines = true) :
    (postPhysTick cfg env fl).2.stopLineDraws = [] := by
  simp [postPhysTick, stopLinesBlock, h]

/-- C3 counterexample: on a first tick where the required source actors
are absent (no road-spline actors, no game mode), the route-line,
crosswalk and stencil flags are NOT set — those categories are retried on
later ticks rather than permanently skipped. -/
theorem C3_counterexample :
    (postPhysTick {} emptyEnv initialFlags).1.added_persisted_route_lines
        = false ∧
    (postPhysTick {} emptyEnv initialFlags).1.added_persisted_crosswalks
        = false ∧
    (postPhysTick {} emptyEnv initialFlags).1.added_persisted_stencils
        = false :=
  ⟨rfl, rfl, rfl⟩

/-- C3 amended: each flag still gates its category to draw at most once
(a true flag stays true and suppresses all further draws of its
category), and the stop-lines flag is set on the first checked tick even
with no traffic lights; but when the required sources are absent the
other three flags are NOT set: the route-lines flag becomes true only
when road-spline actors are present, and the crosswalk and stencil flags
only when the game mode is present — an absent prerequisite leaves the
flag false and the category is retried on later ticks. -/
theorem C3_flag_semantics (cfg : CosmosRenderConfig) (env : TickEnv)
    (fl : PersistedFlags) :
    (fl.added_persisted_stop_lines = true →
      (postPhysTick cfg env fl).1.added_persisted_stop_lines = true ∧
      (postPhysTick cfg env fl).2.stopLineDraws = []) ∧
    (fl.added_persisted_route_lines = true →
      (postPhysTick cfg env fl).1.added_persisted_route_lines = true ∧
      (postPhysTick cfg env fl).2.routeSplinesDrawn = []) ∧
    (fl.added_persisted_crosswalks = true →
      (postPhysTick cfg env fl).1.added_persisted_crosswalks = true ∧
      (postPhysTick cfg env fl).2.crosswalkDraws = []) ∧
    (fl.added_persisted_stencils = true →
      (postPhysTick cfg env fl).1.added_persisted_stencils = true ∧
      (postPhysTick cfg env fl).2.stencilDrawCount = 0) ∧
    (fl.added_persisted_stop_lines = false →
      (postPhysTick cfg env fl).1.added_persisted_stop_lines = true) ∧
    (fl.added_persisted_route_lines = false →
      (postPhysTick cfg env fl).1.added_persisted_route_lines =
        decide (0 < env.roadSplines.length)) ∧
    (fl.added_persisted_crosswalks = false →
      (postPhysTick cfg env fl).1.added_persisted_crosswalks =
        env.gameMode.isSome) ∧
    (fl.added_persisted_stencils = false →
      (postPhysTick cfg env fl).1.added_persisted_stencils =
        env.gameMode.isSome) := by
  refine ⟨?_, ?_, ?_, ?_, ?_, ?_, ?_, ?_⟩ <;> intro h <;>
    cases hg : env.gameMode <;>
    simp [postPhysTick, stopLinesBlock, routeLinesBlock, crosswalksBlock,
      stencilsBlock, h, hg]

/-- Witness for C3 amended, at the all-true flag state and at the initial
state in the empty environment. -/
theorem C3_flag_semantics_witness :
    ((postPhysTick {} emptyEnv ⟨true, true, true, true⟩).2.stopLineDraws
        = [] ∧
      PersistedFlags.added_persisted_stop_lines
        (postPhysTick {} emptyEnv ⟨true, true, true, true⟩).1 = true) ∧
    (postPhysTick {} emptyEnv initialFlags).1.added_persisted_stop_lines
        = true ∧
    (postPhysTick {} emptyEnv initialFlags).1.added_persisted_crosswalks
        = Option.isSome (none : Option GameMap) :=
  ⟨⟨((C3_flag_semantics {} emptyEnv ⟨true, true, true, true⟩).1 rfl).2,
    ((C3_flag_semantics {} emptyEnv ⟨true, true, true, true⟩).1 rfl).1⟩,
   (C3_flag_semantics {} emptyEnv initialFlags).2.2.2.2.1 rfl,
   (C3_flag_semantics {} emptyEnv initialFlags).2.2.2.2.2.2.1 rfl⟩

/-- C7: once added_persisted_stop_lines is true, no later tick draws any
stop line and the flag never resets, whatever traffic lights exist in
those ticks' environments; and the flag becomes true on the very first
tick regardless of how many traffic lights the environment contains. -/
theorem C7_stopLines_one_shot (cfg : CosmosRenderConfig) :
    (∀ (envs : List TickEnv) (fl : PersistedFlags),
      fl.added_persisted_stop_lines = true →
      (runTicks cfg envs fl).1.added_persisted_stop_lines = true ∧
      ∀ o ∈ (runTicks cfg envs fl).2, o.stopLineDraws = []) ∧
    (∀ env : TickEnv,
      (postPhysTick cfg env initialFlags).1.added_persisted_stop_lines
        = true) := by
  constructor
  · intro envs
    induction envs with
    | nil => intro fl h; exact ⟨h, by intro o ho; simp [runTicks] at ho⟩
    | cons e es ih =>
      intro fl h
      obtain ⟨ih1, ih2⟩ := ih (postPhysTick cfg e fl).1
        (postPhysTick_stop_flag cfg e fl)
      refine ⟨ih1, ?_⟩
      intro o ho
      rcases List.mem_cons.mp ho with rfl | homem
      · exact postPhysTick_stop_done cfg e fl h
      · exact ih2 o homem
  · intro env
    exact postPhysTick_stop_flag cfg env initialFlags

/-- Witness for C7: after the stop flag is already set, a further tick
with one traffic light draws no stop line. -/
theorem C7_stopLines_one_shot_witness :
    PersistedFlags.added_persisted_stop_lines
      (runTicks {} [⟨[c8Box], [], none⟩] ⟨true, false, false, false⟩).1
        = true ∧
    ∀ o ∈ (runTicks {} [⟨[c8Box], [], none⟩]
        ⟨true, false, false, false⟩).2, o.stopLineDraws = [] :=
  (C7_stopLines_one_shot {}).1 [⟨[c8Box], [], none⟩]
    ⟨true, false, false, false⟩ rfl

end Cosmos
